import Mathlib

/-!
Verification development for the IDP platform repository.

The repository has two Python components:
* `src/platform/backend-services/configuration-manager/main.py` — a REST
  facade over `ApplicationConfiguration` custom resources, with validation,
  manifest preview, templates, and CRUD delegated to a cluster API;
* `src/windmill/langchain-tools/idp-platform-tools.py` — a Windmill job
  client that submits a flow and polls a status endpoint until completion.

We shallowly embed the Python data model: dynamic values (`Dict[str, Any]`
payloads) become the inductive type `PyVal`, Python `dict`s become
association lists with unique keys whose insertion keeps the key position
(Python 3.7+ semantics), `.get` becomes `lookupD` / `pyGetD`, and Python
truthiness becomes `truthy`.  Places where the Python code would raise
`KeyError` / `AttributeError` on shapes the service never receives are
modelled as returning `PyVal.pyNone`; all theorems below only exercise
well-shaped inputs.
-/

namespace IdpPlatform

/-- A dynamic Python value as it appears in the JSON-derived
`metadata` / `spec` dictionaries of the service. -/
inductive PyVal where
  | pyNone : PyVal
  | pyStr (s : String) : PyVal
  | pyInt (n : Int) : PyVal
  | pyBool (b : Bool) : PyVal
  | pyDict (entries : List (String × PyVal)) : PyVal
  | pyList (elems : List PyVal) : PyVal
deriving Repr, Inhabited

/-- Association-list lookup: Python `dict.get(key)` on a dict whose entries
are `d` (keys are unique in a Python dict, so first match is the match). -/
def lookupD : List (String × PyVal) → String → Option PyVal
  | [], _ => Option.none
  | (k, v) :: rest, key => if k = key then some v else lookupD rest key

/-- Python `dict.get(key)` with the default `None`. -/
def pyGetD (d : List (String × PyVal)) (key : String) : PyVal :=
  (lookupD d key).getD .pyNone

/-- `dict.get(key)` on a dynamic value known to be a dict; the service only
calls `.get` on dicts, so other shapes (an `AttributeError` in Python) are
modelled as `None`. -/
def pyGetV : PyVal → String → PyVal
  | .pyDict d, key => pyGetD d key
  | _, _ => .pyNone

/-- The entries of a dynamic value known to be a dict (`dict.items()`). -/
def pyItems : PyVal → List (String × PyVal)
  | .pyDict d => d
  | _ => []

/-- Python truthiness (`bool(x)`) for the values we model. -/
def truthy : PyVal → Bool
  | .pyNone => false
  | .pyStr s => !s.isEmpty
  | .pyInt n => n != 0
  | .pyBool b => b
  | .pyDict d => !d.isEmpty
  | .pyList l => !l.isEmpty

/-- Python dict assignment `d[key] = v`: replaces the value in place when the
key exists (keeping its position), appends otherwise. -/
def setKey : List (String × PyVal) → String → PyVal → List (String × PyVal)
  | [], key, v => [(key, v)]
  | (k, w) :: rest, key, v =>
    if k = key then (k, v) :: rest else (k, w) :: setKey rest key v

/-- Python `isinstance(x, int)`: `bool` is a subclass of `int` in Python, so
booleans count as integers. -/
def isInstInt : PyVal → Bool
  | .pyInt _ => true
  | .pyBool _ => true
  | _ => false

/-- The integer value of a Python value that is an instance of `int`
(`True` is `1`, `False` is `0`). -/
def asInt : PyVal → Int
  | .pyInt n => n
  | .pyBool b => cond b 1 0
  | _ => 0

/-- `ApplicationConfiguration` (pydantic model): fixed `apiVersion` / `kind`
strings plus free-form `metadata` and `spec` dictionaries. -/
structure ApplicationConfiguration where
  apiVersion : String := "platform.idp/v1alpha1"
  kind : String := "ApplicationConfiguration"
  metadata : List (String × PyVal)
  spec : List (String × PyVal)
deriving Repr

/-- `ValidationResult` (pydantic model). -/
structure ValidationResult where
  valid : Bool
  errors : List String
  warnings : List String
deriving Repr

/-- The environments dict of a configuration:
`config.spec.get("environments", {})`. -/
def environmentsOf (config : ApplicationConfiguration) : PyVal :=
  (lookupD config.spec "environments").getD (.pyDict [])

/-- The per-environment replica test of `validate_configuration`:
`not isinstance(env_config.get("replicas"), int)
 or env_config.get("replicas", 0) <= 0`. -/
def replicasInvalid (envConfig : PyVal) : Bool :=
  !isInstInt (pyGetV envConfig "replicas")
  || decide (asInt ((lookupD (pyItems envConfig) "replicas").getD (.pyInt 0)) ≤ 0)

/-- The per-environment resource test of `validate_configuration`:
`resources = env_config.get("resources", {})` then
`not resources.get("requests") or not resources.get("limits")`. -/
def resourcesUnderspecified (envConfig : PyVal) : Bool :=
  let resources := (lookupD (pyItems envConfig) "resources").getD (.pyDict [])
  !truthy (pyGetV resources "requests") || !truthy (pyGetV resources "limits")

/-- `ConfigurationManager.validate_configuration` (main.py lines 238-266):
collects error and warning strings, and is valid iff no errors. -/
def validate_configuration (config : ApplicationConfiguration) : ValidationResult :=
  let nameErrors :=
    if !truthy (pyGetD config.metadata "name") then ["Configuration name is required"] else []
  let namespaceErrors :=
    if !truthy (pyGetD config.metadata "namespace") then ["Namespace is required"] else []
  let applicationErrors :=
    if !truthy (pyGetD config.spec "application") then ["Application name is required"] else []
  let environments := environmentsOf config
  let noEnvWarnings :=
    if !truthy environments then ["No environments configured"] else []
  let envErrors := (pyItems environments).filterMap (fun p =>
    if replicasInvalid p.2 then
      some ("Invalid replica count for environment " ++ p.1)
    else Option.none)
  let envWarnings := (pyItems environments).filterMap (fun p =>
    if resourcesUnderspecified p.2 then
      some ("Resource requests/limits not fully specified for environment " ++ p.1)
    else Option.none)
  let errors := nameErrors ++ namespaceErrors ++ applicationErrors ++ envErrors
  let warnings := noEnvWarnings ++ envWarnings
  { valid := errors.length == 0, errors := errors, warnings := warnings }

/-- C1: the result of `validate_configuration` is valid iff its error list is
empty; the warnings play no part in validity. -/
theorem validate_valid_iff_no_errors (config : ApplicationConfiguration) :
    ((validate_configuration config).valid = true ↔
      (validate_configuration config).errors = []) ∧
    (validate_configuration config).valid =
      ((validate_configuration config).errors.length == 0) := by
  unfold validate_configuration
  simp [List.length_eq_zero]

/-- C1 witness: a concrete configuration with a warning but no errors is
valid. -/
theorem validate_valid_iff_no_errors_witness :
    ((validate_configuration
      { metadata := [("name", .pyStr "a"), ("namespace", .pyStr "b")],
        spec := [("application", .pyStr "c")] }).valid = true ↔
      (validate_configuration
        { metadata := [("name", .pyStr "a"), ("namespace", .pyStr "b")],
          spec := [("application", .pyStr "c")] }).errors = []) :=
  validate_valid_iff_no_errors
    { metadata := [("name", .pyStr "a"), ("namespace", .pyStr "b")],
      spec := [("application", .pyStr "c")] } |>.1

/-- In a list of dict entries with pairwise-distinct keys (a Python dict),
a key determines its value. -/
theorem value_eq_of_mem_of_nodup_keys {l : List (String × PyVal)}
    (h : (l.map Prod.fst).Nodup) {k : String} {v w : PyVal}
    (hv : (k, v) ∈ l) (hw : (k, w) ∈ l) : v = w := by
  induction l with
  | nil => cases hv
  | cons a t ih =>
    simp only [List.map_cons, List.nodup_cons] at h
    rcases List.mem_cons.mp hv with hv1 | hv1 <;>
      rcases List.mem_cons.mp hw with hw1 | hw1
    · exact congrArg Prod.snd (hv1.trans hw1.symm)
    · exact absurd (List.mem_map.mpr ⟨(k, w), hw1, by rw [← hv1]⟩) h.1
    · exact absurd (List.mem_map.mpr ⟨(k, v), hv1, by rw [← hw1]⟩) h.1
    · exact ih h.2 hv1 hw1

/-- Appending to a fixed string on the left is injective. -/
theorem string_append_left_inj {p a b : String} (h : p ++ a = p ++ b) : a = b := by
  apply String.ext
  have := congrArg String.data h
  rw [String.data_append, String.data_append] at this
  exact List.append_cancel_left this

/-- C2: a configuration missing (or with an empty/falsy) metadata name,
metadata namespace, or spec application identifier is invalid, and the error
list carries the corresponding error string for each missing field. -/
theorem validate_missing_required_fields (config : ApplicationConfiguration)
    (h : truthy (pyGetD config.metadata "name") = false ∨
         truthy (pyGetD config.metadata "namespace") = false ∨
         truthy (pyGetD config.spec "application") = false) :
    (validate_configuration config).valid = false ∧
    (truthy (pyGetD config.metadata "name") = false →
      "Configuration name is required" ∈ (validate_configuration config).errors) ∧
    (truthy (pyGetD config.metadata "namespace") = false →
      "Namespace is required" ∈ (validate_configuration config).errors) ∧
    (truthy (pyGetD config.spec "application") = false →
      "Application name is required" ∈ (validate_configuration config).errors) := by
  unfold validate_configuration
  refine ⟨?_, ?_, ?_, ?_⟩
  · rcases h with h | h | h <;> simp [h]
  all_goals intro h1; simp [h1]

/-- C2 witness: a configuration with empty name, namespace present,
application present. -/
theorem validate_missing_required_fields_witness :
    (validate_configuration
      { metadata := [("name", .pyStr ""), ("namespace", .pyStr "ns")],
        spec := [("application", .pyStr "app")] }).valid = false ∧
    "Configuration name is required" ∈
      (validate_configuration
        { metadata := [("name", .pyStr ""), ("namespace", .pyStr "ns")],
          spec := [("application", .pyStr "app")] }).errors := by
  have h := validate_missing_required_fields
    { metadata := [("name", .pyStr ""), ("namespace", .pyStr "ns")],
      spec := [("application", .pyStr "app")] } (Or.inl (by rfl))
  exact ⟨h.1, h.2.1 (by rfl)⟩

/-- `replicasInvalid` holds exactly when the replica entry is not a positive
integer (in Python's sense: instance of `int`, value > 0). -/
theorem replicasInvalid_iff_not_positive_int (envConfig : PyVal) :
    replicasInvalid envConfig = false ↔
      (isInstInt (pyGetV envConfig "replicas") = true ∧
       0 < asInt (pyGetV envConfig "replicas")) := by
  cases envConfig with
  | pyDict d =>
    cases hl : lookupD d "replicas" with
    | none => simp [replicasInvalid, pyGetV, pyItems, pyGetD, hl, isInstInt, asInt]
    | some v =>
      cases v with
      | pyInt n =>
        simp [replicasInvalid, pyGetV, pyItems, pyGetD, hl, isInstInt, asInt]
      | pyBool b =>
        cases b <;> simp [replicasInvalid, pyGetV, pyItems, pyGetD, hl, isInstInt, asInt]
      | pyNone => simp [replicasInvalid, pyGetV, pyItems, pyGetD, hl, isInstInt, asInt]
      | pyStr s => simp [replicasInvalid, pyGetV, pyItems, pyGetD, hl, isInstInt, asInt]
      | pyDict d2 => simp [replicasInvalid, pyGetV, pyItems, pyGetD, hl, isInstInt, asInt]
      | pyList l2 => simp [replicasInvalid, pyGetV, pyItems, pyGetD, hl, isInstInt, asInt]
  | pyNone => simp [replicasInvalid, pyGetV, pyItems, pyGetD, lookupD, isInstInt, asInt]
  | pyStr s => simp [replicasInvalid, pyGetV, pyItems, pyGetD, lookupD, isInstInt, asInt]
  | pyInt n =>
    simp [replicasInvalid, pyGetV, pyItems, pyGetD, lookupD, isInstInt, asInt]
  | pyBool b =>
    simp [replicasInvalid, pyGetV, pyItems, pyGetD, lookupD, isInstInt, asInt]
  | pyList l =>
    simp [replicasInvalid, pyGetV, pyItems, pyGetD, lookupD, isInstInt, asInt]

/-- Membership in the error list of `validate_configuration`, spelled out. -/
theorem mem_validate_errors (config : ApplicationConfiguration) (s : String) :
    s ∈ (validate_configuration config).errors ↔
      (truthy (pyGetD config.metadata "name") = false ∧
        s = "Configuration name is required") ∨
      (truthy (pyGetD config.metadata "namespace") = false ∧
        s = "Namespace is required") ∨
      (truthy (pyGetD config.spec "application") = false ∧
        s = "Application name is required") ∨
      (∃ p ∈ pyItems (environmentsOf config), replicasInvalid p.2 = true ∧
        s = "Invalid replica count for environment " ++ p.1) := by
  unfold validate_configuration
  simp only [List.mem_append, List.mem_ite_nil_right, List.mem_singleton,
    List.mem_filterMap, Option.ite_none_right_eq_some, Option.some.injEq,
    Bool.not_eq_true']
  constructor
  · rintro (((h | h) | h) | ⟨p, hp, hinv, hs⟩)
    · exact Or.inl h
    · exact Or.inr (Or.inl h)
    · exact Or.inr (Or.inr (Or.inl h))
    · exact Or.inr (Or.inr (Or.inr ⟨p, hp, hinv, hs.symm⟩))
  · rintro (h | h | h | ⟨p, hp, hinv, hs⟩)
    · exact Or.inl (Or.inl (Or.inl h))
    · exact Or.inl (Or.inl (Or.inr h))
    · exact Or.inl (Or.inr h)
    · exact Or.inr ⟨p, hp, hinv, hs.symm⟩

/-- C3: an environment whose replica entry is not a positive integer (in
Python's sense) yields the error naming that environment, and an environment
whose replica entry is a positive integer never does. -/
theorem validate_replica_count (config : ApplicationConfiguration)
    (env : String) (envConfig : PyVal)
    (hmem : (env, envConfig) ∈ pyItems (environmentsOf config))
    (hnodup : ((pyItems (environmentsOf config)).map Prod.fst).Nodup) :
    (¬ (isInstInt (pyGetV envConfig "replicas") = true ∧
        0 < asInt (pyGetV envConfig "replicas")) →
      ("Invalid replica count for environment " ++ env) ∈
        (validate_configuration config).errors) ∧
    ((isInstInt (pyGetV envConfig "replicas") = true ∧
      0 < asInt (pyGetV envConfig "replicas")) →
      ("Invalid replica count for environment " ++ env) ∉
        (validate_configuration config).errors) := by
  constructor
  · intro hnotpos
    have hinv : replicasInvalid envConfig = true := by
      by_contra hinv
      simp only [Bool.not_eq_true] at hinv
      exact hnotpos ((replicasInvalid_iff_not_positive_int envConfig).mp hinv)
    exact (mem_validate_errors config _).mpr
      (Or.inr (Or.inr (Or.inr ⟨(env, envConfig), hmem, hinv, rfl⟩)))
  · intro hpos hmem2
    have hval : replicasInvalid envConfig = false :=
      (replicasInvalid_iff_not_positive_int envConfig).mpr hpos
    rcases (mem_validate_errors config _).mp hmem2 with
      ⟨_, h⟩ | ⟨_, h⟩ | ⟨_, h⟩ | ⟨p, hp, hinv, hs⟩
    · have := congrArg String.length h
      rw [String.length_append] at this
      have h38 : ("Invalid replica count for environment ").length = 38 := rfl
      have h30 : ("Configuration name is required").length = 30 := rfl
      omega
    · have := congrArg String.length h
      rw [String.length_append] at this
      have h38 : ("Invalid replica count for environment ").length = 38 := rfl
      have h21 : ("Namespace is required").length = 21 := rfl
      omega
    · have := congrArg String.length h
      rw [String.length_append] at this
      have h38 : ("Invalid replica count for environment ").length = 38 := rfl
      have h28 : ("Application name is required").length = 28 := rfl
      omega
    · have henv : env = p.1 := string_append_left_inj hs
      have : envConfig = p.2 :=
        value_eq_of_mem_of_nodup_keys hnodup hmem (by rw [henv] at hmem2 ⊢; simpa using hp)
      rw [this, hinv] at hval
      exact absurd hval (by simp)

/-- C3 witness: an environment with replicas 0 gets the error, one with
replicas 2 does not. -/
theorem validate_replica_count_witness :
    ("Invalid replica count for environment dev") ∈
      (validate_configuration
        { metadata := [("name", .pyStr "n"), ("namespace", .pyStr "ns")],
          spec := [("application", .pyStr "app"),
            ("environments", .pyDict [("dev", .pyDict [("replicas", .pyInt 0)]),
              ("prod", .pyDict [("replicas", .pyInt 2)])])] }).errors ∧
    ("Invalid replica count for environment prod") ∉
      (validate_configuration
        { metadata := [("name", .pyStr "n"), ("namespace", .pyStr "ns")],
          spec := [("application", .pyStr "app"),
            ("environments", .pyDict [("dev", .pyDict [("replicas", .pyInt 0)]),
              ("prod", .pyDict [("replicas", .pyInt 2)])])] }).errors := by
  constructor
  · have h := validate_replica_count
      { metadata := [("name", .pyStr "n"), ("namespace", .pyStr "ns")],
        spec := [("application", .pyStr "app"),
          ("environments", .pyDict [("dev", .pyDict [("replicas", .pyInt 0)]),
            ("prod", .pyDict [("replicas", .pyInt 2)])])] }
      "dev" (.pyDict [("replicas", .pyInt 0)])
      (by simp [environmentsOf, lookupD, pyItems])
      (by simp [environmentsOf, lookupD, pyItems])
    exact h.1 (by simp [pyGetV, pyGetD, lookupD, isInstInt, asInt])
  · have h := validate_replica_count
      { metadata := [("name", .pyStr "n"), ("namespace", .pyStr "ns")],
        spec := [("application", .pyStr "app"),
          ("environments", .pyDict [("dev", .pyDict [("replicas", .pyInt 0)]),
            ("prod", .pyDict [("replicas", .pyInt 2)])])] }
      "prod" (.pyDict [("replicas", .pyInt 2)])
      (by simp [environmentsOf, lookupD, pyItems])
      (by simp [environmentsOf, lookupD, pyItems])
    exact h.2 (by simp [pyGetV, pyGetD, lookupD, isInstInt, asInt])

/-- C4: an environment lacking resource requests or limits produces the
warning naming that environment, and warnings never make a configuration
invalid: with the three required fields present and every replica count a
positive integer, the configuration is valid no matter what resources say. -/
theorem validate_resource_warnings (config : ApplicationConfiguration)
    (env : String) (envConfig : PyVal)
    (hmem : (env, envConfig) ∈ pyItems (environmentsOf config)) :
    ((truthy (pyGetV ((lookupD (pyItems envConfig) "resources").getD
        (.pyDict [])) "requests") = false ∨
      truthy (pyGetV ((lookupD (pyItems envConfig) "resources").getD
        (.pyDict [])) "limits") = false) →
      ("Resource requests/limits not fully specified for environment " ++ env) ∈
        (validate_configuration config).warnings) ∧
    ((truthy (pyGetD config.metadata "name") = true ∧
      truthy (pyGetD config.metadata "namespace") = true ∧
      truthy (pyGetD config.spec "application") = true ∧
      ∀ p ∈ pyItems (environmentsOf config), replicasInvalid p.2 = false) →
      (validate_configuration config).valid = true) := by
  constructor
  · intro hres
    have hund : resourcesUnderspecified envConfig = true := by
      unfold resourcesUnderspecified
      rcases hres with h | h <;> simp [h]
    unfold validate_configuration
    simp only [List.mem_append, List.mem_ite_nil_right, List.mem_singleton,
      List.mem_filterMap]
    exact Or.inr ⟨(env, envConfig), hmem, by simp [hund]⟩
  · rintro ⟨h1, h2, h3, h4⟩
    have henv : (pyItems (environmentsOf config)).filterMap (fun p =>
        if replicasInvalid p.2 then
          some ("Invalid replica count for environment " ++ p.1)
        else Option.none) = [] :=
      List.filterMap_eq_nil_iff.mpr (fun a ha => by simp [h4 a ha])
    unfold validate_configuration
    simp [h1, h2, h3, henv]

/-- C4 witness: an environment with no resources at all still leaves the
configuration valid, and gets the warning. -/
theorem validate_resource_warnings_witness :
    ("Resource requests/limits not fully specified for environment dev") ∈
      (validate_configuration
        { metadata := [("name", .pyStr "n"), ("namespace", .pyStr "ns")],
          spec := [("application", .pyStr "app"),
            ("environments",
              .pyDict [("dev", .pyDict [("replicas", .pyInt 1)])])] }).warnings ∧
    (validate_configuration
      { metadata := [("name", .pyStr "n"), ("namespace", .pyStr "ns")],
        spec := [("application", .pyStr "app"),
          ("environments",
            .pyDict [("dev", .pyDict [("replicas", .pyInt 1)])])] }).valid = true := by
  have h := validate_resource_warnings
    { metadata := [("name", .pyStr "n"), ("namespace", .pyStr "ns")],
      spec := [("application", .pyStr "app"),
        ("environments", .pyDict [("dev", .pyDict [("replicas", .pyInt 1)])])] }
    "dev" (.pyDict [("replicas", .pyInt 1)])
    (by simp [environmentsOf, lookupD, pyItems])
  refine ⟨h.1 (Or.inl (by rfl)), h.2 ⟨by rfl, by rfl, by rfl, ?_⟩⟩
  intro p hp
  simp only [environmentsOf, lookupD, pyItems] at hp
  simp at hp
  rw [hp]
  rfl

/-- A single-quote character, as used by Python `repr` of strings. -/
def singleQuote : String := String.singleton (Char.ofNat 39)

mutual
/-- Python `repr` of a dynamic value (string escaping is not modelled; the
service only ever formats plain identifier strings). -/
def pyReprV : PyVal → String
  | .pyNone => "None"
  | .pyBool b => cond b "True" "False"
  | .pyInt n => toString n
  | .pyStr s => singleQuote ++ s ++ singleQuote
  | .pyDict d => "\x7b" ++ String.intercalate ", " (pyReprEntries d) ++ "\x7d"
  | .pyList l => "[" ++ String.intercalate ", " (pyReprElems l) ++ "]"

/-- `repr` of the entries of a dict. -/
def pyReprEntries : List (String × PyVal) → List String
  | [] => []
  | (k, v) :: rest =>
    (singleQuote ++ k ++ singleQuote ++ ": " ++ pyReprV v) :: pyReprEntries rest

/-- `repr` of the elements of a list. -/
def pyReprElems : List PyVal → List String
  | [] => []
  | v :: rest => pyReprV v :: pyReprElems rest
end

/-- Python `str(x)`, the conversion applied by f-string interpolation. -/
def pyToStr : PyVal → String
  | .pyStr s => s
  | v => pyReprV v

/-- `ConfigurationManager._generate_manifests` (main.py lines 392-449): one
WebApplication manifest carrying the environments map, then per environment
a DatabaseInstance manifest when a database sub-spec is present followed by
a CacheInstance manifest when a cache sub-spec is present. -/
def generate_manifests (config : ApplicationConfiguration) : List PyVal :=
  let web_app_manifest : PyVal := .pyDict [
    ("apiVersion", .pyStr "platform.idp/v1alpha1"),
    ("kind", .pyStr "WebApplication"),
    ("metadata", .pyDict [
      ("name", pyGetD config.spec "application"),
      ("namespace", pyGetD config.metadata "namespace")]),
    ("spec", .pyDict [
      ("environments", (lookupD config.spec "environments").getD (.pyDict []))])]
  web_app_manifest ::
    (pyItems ((lookupD config.spec "environments").getD (.pyDict []))).flatMap
      (fun p =>
        (if truthy (pyGetV p.2 "database") then
          [(.pyDict [
            ("apiVersion", .pyStr "platform.idp/v1alpha1"),
            ("kind", .pyStr "DatabaseInstance"),
            ("metadata", .pyDict [
              ("name", .pyStr (pyToStr (pyGetD config.spec "application") ++
                "-" ++ p.1 ++ "-db")),
              ("namespace", pyGetD config.metadata "namespace")]),
            ("spec", .pyDict [
              ("type", pyGetV (pyGetV p.2 "database") "type"),
              ("size", pyGetV (pyGetV p.2 "database") "size"),
              ("environment", .pyStr p.1)])] : PyVal)]
        else []) ++
        (if truthy (pyGetV p.2 "cache") then
          [(.pyDict [
            ("apiVersion", .pyStr "platform.idp/v1alpha1"),
            ("kind", .pyStr "CacheInstance"),
            ("metadata", .pyDict [
              ("name", .pyStr (pyToStr (pyGetD config.spec "application") ++
                "-" ++ p.1 ++ "-cache")),
              ("namespace", pyGetD config.metadata "namespace")]),
            ("spec", .pyDict [
              ("type", pyGetV (pyGetV p.2 "cache") "type"),
              ("size", pyGetV (pyGetV p.2 "cache") "size"),
              ("nodes", (lookupD (pyItems (pyGetV p.2 "cache")) "nodes").getD
                (.pyInt 1)),
              ("environment", .pyStr p.1)])] : PyVal)]
        else []))

/-- The `kind` field of a manifest. -/
def manifestKind (m : PyVal) : PyVal := pyGetV m "kind"

/-- The `metadata.name` field of a manifest. -/
def manifestName (m : PyVal) : PyVal := pyGetV (pyGetV m "metadata") "name"

/-- The `spec.environments` field of a manifest. -/
def manifestEnvs (m : PyVal) : PyVal := pyGetV (pyGetV m "spec") "environments"

/-- C5: the manifests of a configuration whose application field is the
string `app` are, in order: one WebApplication manifest named `app` and
carrying the full environments map, then, for each environment in the map's
order, a DatabaseInstance named `app-env-db` when a database sub-spec is
present followed by a CacheInstance named `app-env-cache` when a cache
sub-spec is present.  The function is pure, so two runs on the same input
emit the identical sequence. -/
theorem generate_manifests_shape (config : ApplicationConfiguration)
    (app : String)
    (happ : lookupD config.spec "application" = some (.pyStr app)) :
    (generate_manifests config).map (fun m => (manifestKind m, manifestName m)) =
      ((.pyStr "WebApplication" : PyVal), pyGetD config.spec "application") ::
        (pyItems (environmentsOf config)).flatMap (fun p =>
          (if truthy (pyGetV p.2 "database") then
            [((.pyStr "DatabaseInstance" : PyVal),
              (.pyStr (app ++ "-" ++ p.1 ++ "-db") : PyVal))] else []) ++
          (if truthy (pyGetV p.2 "cache") then
            [((.pyStr "CacheInstance" : PyVal),
              (.pyStr (app ++ "-" ++ p.1 ++ "-cache") : PyVal))] else [])) ∧
    manifestEnvs ((generate_manifests config).headI) = environmentsOf config := by
  constructor
  · unfold generate_manifests
    rw [List.map_cons]
    refine congrArg₂ List.cons ?_ ?_
    · simp [manifestKind, manifestName, pyGetV, pyGetD, lookupD]
    · rw [List.map_flatMap]
      refine List.flatMap_congr (fun p hp => ?_)
      by_cases h1 : truthy (pyGetV p.2 "database") <;>
        by_cases h2 : truthy (pyGetV p.2 "cache") <;>
        (simp only [h1, h2]
         simp [manifestKind, manifestName, pyGetV, pyGetD, lookupD, happ,
           pyToStr])
  · unfold generate_manifests
    simp [manifestEnvs, pyGetV, pyGetD, lookupD, environmentsOf]

/-- C5 witness: two environments, the first with a database sub-spec, the
second with a cache sub-spec, yield exactly three manifests with the
`app-env-kind` names. -/
theorem generate_manifests_shape_witness :
    (generate_manifests
      { metadata := [("namespace", .pyStr "ns")],
        spec := [("application", .pyStr "myapp"),
          ("environments", .pyDict [
            ("dev", .pyDict [("database",
              .pyDict [("type", .pyStr "postgresql"), ("size", .pyStr "small")])]),
            ("prod", .pyDict [("cache",
              .pyDict [("type", .pyStr "redis"), ("size", .pyStr "small")])])])] }).map
        (fun m => (manifestKind m, manifestName m)) =
      [((.pyStr "WebApplication" : PyVal), (.pyStr "myapp" : PyVal)),
       ((.pyStr "DatabaseInstance" : PyVal), (.pyStr "myapp-dev-db" : PyVal)),
       ((.pyStr "CacheInstance" : PyVal), (.pyStr "myapp-prod-cache" : PyVal))] := by
  have h := (generate_manifests_shape
    { metadata := [("namespace", .pyStr "ns")],
      spec := [("application", .pyStr "myapp"),
        ("environments", .pyDict [
          ("dev", .pyDict [("database",
            .pyDict [("type", .pyStr "postgresql"), ("size", .pyStr "small")])]),
          ("prod", .pyDict [("cache",
            .pyDict [("type", .pyStr "redis"), ("size", .pyStr "small")])])])] }
    "myapp" (by simp [lookupD])).1
  rw [h]
  simp [environmentsOf, lookupD, pyItems, pyGetV, pyGetD, truthy]

/-- `ConfigurationTemplate` (pydantic model). -/
structure ConfigurationTemplate where
  name : String
  description : String
  type : String
  configuration : List (String × PyVal)
deriving Repr

/-- `fastapi.HTTPException` as raised by the service. -/
structure HTTPExc where
  status_code : Nat
  detail : String
deriving Repr, DecidableEq

/-- The two built-in templates of `ConfigurationManager.get_templates`
(main.py lines 289-348). -/
def builtin_templates : List ConfigurationTemplate := [
  { name := "web-application",
    description := "Standard web application with load balancer",
    type := "web-app",
    configuration := [("spec", .pyDict [("environments", .pyDict [
      ("development", .pyDict [
        ("replicas", .pyInt 1),
        ("resources", .pyDict [
          ("requests", .pyDict [("cpu", .pyStr "100m"), ("memory", .pyStr "128Mi")]),
          ("limits", .pyDict [("cpu", .pyStr "500m"), ("memory", .pyStr "512Mi")])])]),
      ("production", .pyDict [
        ("replicas", .pyInt 3),
        ("resources", .pyDict [
          ("requests", .pyDict [("cpu", .pyStr "500m"), ("memory", .pyStr "512Mi")]),
          ("limits", .pyDict [("cpu", .pyStr "1000m"), ("memory", .pyStr "1Gi")])])])])])] },
  { name := "api-service",
    description := "REST API service with database",
    type := "api-service",
    configuration := [("spec", .pyDict [("environments", .pyDict [
      ("development", .pyDict [
        ("replicas", .pyInt 1),
        ("resources", .pyDict [
          ("requests", .pyDict [("cpu", .pyStr "200m"), ("memory", .pyStr "256Mi")]),
          ("limits", .pyDict [("cpu", .pyStr "500m"), ("memory", .pyStr "512Mi")])]),
        ("database", .pyDict [("type", .pyStr "postgresql"), ("size", .pyStr "small")])]),
      ("production", .pyDict [
        ("replicas", .pyInt 3),
        ("resources", .pyDict [
          ("requests", .pyDict [("cpu", .pyStr "500m"), ("memory", .pyStr "512Mi")]),
          ("limits", .pyDict [("cpu", .pyStr "1000m"), ("memory", .pyStr "1Gi")])]),
        ("database", .pyDict [("type", .pyStr "postgresql"), ("size", .pyStr "large")])])])])] }]

/-- `ConfigurationManager.get_templates`: the built-in templates followed by
whatever well-formed templates were loaded from the templates directory
(those are parameters here, since the filesystem is external state; they are
appended after the built-ins, exactly as in the source). -/
def get_templates (custom : List ConfigurationTemplate) : List ConfigurationTemplate :=
  builtin_templates ++ custom

/-- Python dict-literal merge `\x7b"k": v, **updates\x7d`: later entries
overwrite earlier values in place and otherwise append. -/
def dictUpdate (base updates : List (String × PyVal)) : List (String × PyVal) :=
  updates.foldl (fun d p => setKey d p.1 p.2) base

/-- `ConfigurationManager.apply_template` (main.py lines 364-390): look the
template up by name (404 when absent) and build a fresh, not-yet-persisted
configuration from it.  The backing store is never touched. -/
def apply_template (custom : List ConfigurationTemplate)
    (template_name app_name namespace_arg : String) :
    Except HTTPExc ApplicationConfiguration :=
  match (get_templates custom).find? (fun t => t.name == template_name) with
  | Option.none =>
    .error ⟨404, "Template " ++ template_name ++ " not found"⟩
  | some template =>
    .ok {
      apiVersion := "platform.idp/v1alpha1",
      kind := "ApplicationConfiguration",
      metadata := [
        ("name", .pyStr (app_name ++ "-config")),
        ("namespace", .pyStr namespace_arg),
        ("labels", .pyDict [
          ("app", .pyStr app_name),
          ("template", .pyStr template_name)])],
      spec := dictUpdate [("application", .pyStr app_name)]
        (pyItems ((lookupD template.configuration "spec").getD (.pyDict []))) }

/-- C6: `apply_template "web-application" "foo" "ns1"` returns the expected
configuration: name `foo-config`, namespace `ns1`, labels
`\x7bapp: foo, template: web-application\x7d`, and the template's fixed
development/production environments with 1 and 3 replicas — regardless of
what custom templates are installed (the built-in is found first). -/
theorem apply_template_web_application (custom : List ConfigurationTemplate) :
    apply_template custom "web-application" "foo" "ns1" =
      .ok { apiVersion := "platform.idp/v1alpha1",
            kind := "ApplicationConfiguration",
            metadata := [
              ("name", .pyStr "foo-config"),
              ("namespace", .pyStr "ns1"),
              ("labels", .pyDict [("app", .pyStr "foo"),
                ("template", .pyStr "web-application")])],
            spec := [
              ("application", .pyStr "foo"),
              ("environments", .pyDict [
                ("development", .pyDict [
                  ("replicas", .pyInt 1),
                  ("resources", .pyDict [
                    ("requests", .pyDict [("cpu", .pyStr "100m"),
                      ("memory", .pyStr "128Mi")]),
                    ("limits", .pyDict [("cpu", .pyStr "500m"),
                      ("memory", .pyStr "512Mi")])])]),
                ("production", .pyDict [
                  ("replicas", .pyInt 3),
                  ("resources", .pyDict [
                    ("requests", .pyDict [("cpu", .pyStr "500m"),
                      ("memory", .pyStr "512Mi")]),
                    ("limits", .pyDict [("cpu", .pyStr "1000m"),
                      ("memory", .pyStr "1Gi")])])])])] } := rfl

/-- C6 witness: the same instantiation with no custom templates installed,
projected to the stamped metadata. -/
theorem apply_template_web_application_witness :
    (apply_template [] "web-application" "foo" "ns1").map
        (fun c => c.metadata) =
      .ok [("name", .pyStr "foo-config"),
        ("namespace", .pyStr "ns1"),
        ("labels", .pyDict [("app", .pyStr "foo"),
          ("template", .pyStr "web-application")])] := by
  rw [apply_template_web_application []]
  rfl

/-- `kubernetes.client.exceptions.ApiException`: HTTP status and reason. -/
structure ApiException where
  status : Nat
  reason : String
deriving Repr, DecidableEq

/-- `ConfigurationManager.delete_configuration` (main.py lines 219-236), as a
function of the backend delete outcome: a not-found fault (status 404) is
swallowed, any other fault is re-raised as a 500 `HTTPException`, and a
successful backend delete succeeds (`_remove_from_git` is a logging stub
with no effect). -/
def delete_configuration (backend : Except ApiException Unit) :
    Except HTTPExc Unit :=
  match backend with
  | .ok _ => .ok ()
  | .error e =>
    if e.status ≠ 404 then
      .error ⟨500, "Failed to delete configuration: " ++ e.reason⟩
    else .ok ()

/-- C7: delete treats absence (a 404 backend fault) as success — so a
delete of a non-existent identity, including a second delete of an
already-deleted one, succeeds — while any backend fault other than 404
propagates as a 500 service error. -/
theorem delete_configuration_idempotent (r : String) (e : ApiException)
    (he : e.status ≠ 404) :
    delete_configuration (.error ⟨404, r⟩) = .ok () ∧
    delete_configuration (.ok ()) = .ok () ∧
    delete_configuration (.error e) =
      .error ⟨500, "Failed to delete configuration: " ++ e.reason⟩ := by
  refine ⟨rfl, rfl, ?_⟩
  unfold delete_configuration
  simp [he]

/-- C7 witness: a backend 404 is swallowed twice in a row, and a backend 500
propagates. -/
theorem delete_configuration_idempotent_witness :
    delete_configuration (.error ⟨404, "not found"⟩) = .ok () ∧
    delete_configuration (.error ⟨500, "boom"⟩) =
      .error ⟨500, "Failed to delete configuration: " ++ "boom"⟩ := by
  have h := delete_configuration_idempotent "not found" ⟨500, "boom"⟩ (by decide)
  exact ⟨h.1, h.2.2⟩

/-- One HTTP interaction of the poll loop in
`WindmillClient._wait_for_completion`: a response carrying a status code and
JSON body, or a `requests.RequestException`. -/
inductive HttpResp where
  | resp (status_code : Nat) (body : PyVal)
  | exn (message : String)
deriving Repr

/-- The poll loop of `WindmillClient._wait_for_completion`
(idp-platform-tools.py lines 56-82), with the i-th status request answered
by `responses i`.  `fuel` is the number of attempts the `max_wait` window
still admits: the loop runs while the elapsed time is below `max_wait` and
sleeps 5 seconds after every "not found", so with request time idealized to
zero, attempt k happens at elapsed time 5k and the window admits
⌈max_wait / 5⌉ attempts before the loop exits with the timeout result. -/
def poll_loop (job_id : String) (responses : Nat → HttpResp) :
    Nat → Nat → PyVal
  | 0, _ => .pyDict [("success", .pyBool false), ("error", .pyStr "Job timeout")]
  | fuel + 1, i =>
    match responses i with
    | .resp status_code body =>
      if status_code = 200 then
        .pyDict [("success", .pyBool true),
          ("job_id", .pyStr job_id),
          ("result", (lookupD (pyItems body) "result").getD (.pyDict [])),
          ("logs", (lookupD (pyItems body) "logs").getD (.pyList []))]
      else if status_code = 404 then
        poll_loop job_id responses fuel (i + 1)
      else
        .pyDict [("success", .pyBool false),
          ("error", .pyStr ("Job failed with status " ++ toString status_code))]
    | .exn msg =>
      .pyDict [("success", .pyBool false),
        ("error", .pyStr ("Error checking job status: " ++ msg))]

/-- `WindmillClient._wait_for_completion` with its default 300-second
`max_wait` window and fixed 5-second backoff. -/
def wait_for_completion (job_id : String) (responses : Nat → HttpResp)
    (max_wait : Nat := 300) : PyVal :=
  poll_loop job_id responses ((max_wait + 4) / 5) 0

/-- While the status endpoint keeps answering 404 ("job still running"), the
poll loop just consumes fuel and moves to the next attempt. -/
theorem poll_loop_skips_not_found (job_id : String)
    (responses : Nat → HttpResp) :
    ∀ (n fuel i : Nat),
      (∀ j, j < n → ∃ b, responses (i + j) = .resp 404 b) → n ≤ fuel →
      poll_loop job_id responses fuel i =
        poll_loop job_id responses (fuel - n) (i + n) := by
  intro n
  induction n with
  | zero => intro fuel i _ _; simp
  | succ m ih =>
    intro fuel i h hle
    obtain ⟨b, hb⟩ := h 0 (Nat.succ_pos m)
    rw [Nat.add_zero] at hb
    cases fuel with
    | zero => omega
    | succ f =>
      have hstep : poll_loop job_id responses (f + 1) i =
          poll_loop job_id responses f (i + 1) := by
        simp [poll_loop, hb]
      rw [hstep, ih f (i + 1) (fun j hj => by
        have := h (j + 1) (by omega)
        simpa [Nat.add_assoc, Nat.add_comm 1 j] using this) (by omega)]
      congr 1
      · omega
      · omega

/-- C8: behavior of the poll loop.  If the status endpoint answers 404 for
the first N attempts and then 200 with a result payload, the client returns
the success result after those N retries (provided N is within the timeout
window); if every attempt within the window answers 404, the client stops
and returns the timeout failure; and an answer that is neither 200 nor 404
terminates polling immediately with a failure result. -/
theorem wait_for_completion_behavior (job_id : String)
    (responses : Nat → HttpResp) (max_wait N k code : Nat) (body b : PyVal) :
    ((∀ j, j < N → ∃ bj, responses j = .resp 404 bj) →
      responses N = .resp 200 body → N < (max_wait + 4) / 5 →
      wait_for_completion job_id responses max_wait =
        .pyDict [("success", .pyBool true),
          ("job_id", .pyStr job_id),
          ("result", (lookupD (pyItems body) "result").getD (.pyDict [])),
          ("logs", (lookupD (pyItems body) "logs").getD (.pyList []))]) ∧
    ((∀ j, j < (max_wait + 4) / 5 → ∃ bj, responses j = .resp 404 bj) →
      wait_for_completion job_id responses max_wait =
        .pyDict [("success", .pyBool false), ("error", .pyStr "Job timeout")]) ∧
    ((∀ j, j < k → ∃ bj, responses j = .resp 404 bj) →
      responses k = .resp code b → code ≠ 200 → code ≠ 404 →
      k < (max_wait + 4) / 5 →
      wait_for_completion job_id responses max_wait =
        .pyDict [("success", .pyBool false),
          ("error", .pyStr ("Job failed with status " ++ toString code))]) := by
  refine ⟨?_, ?_, ?_⟩
  · intro h404 h200 hN
    unfold wait_for_completion
    rw [poll_loop_skips_not_found job_id responses N ((max_wait + 4) / 5) 0
      (fun j hj => by simpa using h404 j hj) (by omega)]
    rw [Nat.zero_add]
    have : (max_wait + 4) / 5 - N = ((max_wait + 4) / 5 - N - 1) + 1 := by omega
    rw [this]
    simp [poll_loop, h200]
  · intro h404
    unfold wait_for_completion
    rw [poll_loop_skips_not_found job_id responses ((max_wait + 4) / 5)
      ((max_wait + 4) / 5) 0 (fun j hj => by simpa using h404 j hj) (by omega)]
    simp [poll_loop]
  · intro h404 hk h200 h404c hklt
    unfold wait_for_completion
    rw [poll_loop_skips_not_found job_id responses k ((max_wait + 4) / 5) 0
      (fun j hj => by simpa using h404 j hj) (by omega)]
    rw [Nat.zero_add]
    have : (max_wait + 4) / 5 - k = ((max_wait + 4) / 5 - k - 1) + 1 := by omega
    rw [this]
    simp [poll_loop, hk, h200, h404c]

/-- C8 witness: two 404 answers, then a success payload; an endpoint that
always answers 404; and an endpoint answering 500 on the first attempt. -/
theorem wait_for_completion_behavior_witness :
    wait_for_completion "job1" (fun i => if i < 2 then .resp 404 .pyNone
      else .resp 200 (.pyDict [("result", .pyStr "ok")])) 300 =
      .pyDict [("success", .pyBool true), ("job_id", .pyStr "job1"),
        ("result", .pyStr "ok"), ("logs", .pyList [])] ∧
    wait_for_completion "job2" (fun _ => .resp 404 .pyNone) 300 =
      .pyDict [("success", .pyBool false), ("error", .pyStr "Job timeout")] ∧
    wait_for_completion "job3" (fun _ => .resp 500 .pyNone) 300 =
      .pyDict [("success", .pyBool false),
        ("error", .pyStr ("Job failed with status " ++ toString 500))] := by
  refine ⟨?_, ?_, ?_⟩
  · have h := (wait_for_completion_behavior "job1"
      (fun i => if i < 2 then .resp 404 .pyNone
        else .resp 200 (.pyDict [("result", .pyStr "ok")])) 300 2 0 0
      (.pyDict [("result", .pyStr "ok")]) .pyNone).1
      (fun j hj => ⟨.pyNone, by simp [hj]⟩) (by simp) (by decide)
    rw [h]
    rfl
  · exact (wait_for_completion_behavior "job2" (fun _ => .resp 404 .pyNone)
      300 0 0 0 .pyNone .pyNone).2.1 (fun j _ => ⟨.pyNone, rfl⟩)
  · exact (wait_for_completion_behavior "job3" (fun _ => .resp 500 .pyNone)
      300 0 0 500 .pyNone .pyNone).2.2 (fun j hj => absurd hj (by omega))
      rfl (by decide) (by decide) (by decide)

/-- Looking up the key just set finds the new value. -/
theorem lookupD_setKey_self (d : List (String × PyVal)) (k : String)
    (v : PyVal) : lookupD (setKey d k v) k = some v := by
  induction d with
  | nil => simp [setKey, lookupD]
  | cons a t ih =>
    obtain ⟨ka, va⟩ := a
    by_cases h : ka = k <;> simp [setKey, lookupD, h, ih]

/-- Setting a key leaves every other key's value unchanged. -/
theorem lookupD_setKey_ne (d : List (String × PyVal)) (k k' : String)
    (v : PyVal) (h : k' ≠ k) : lookupD (setKey d k v) k' = lookupD d k' := by
  have hne : ¬ k = k' := fun hc => h hc.symm
  induction d with
  | nil => simp [setKey, lookupD, hne]
  | cons a t ih =>
    obtain ⟨ka, va⟩ := a
    by_cases hk : ka = k
    · subst hk
      simp [setKey, lookupD, hne]
    · simp [setKey, lookupD, hk, ih]

/-- Setting the same key twice keeps only the second value. -/
theorem setKey_setKey_same (d : List (String × PyVal)) (k : String)
    (v w : PyVal) : setKey (setKey d k v) k w = setKey d k w := by
  induction d with
  | nil => simp [setKey]
  | cons a t ih =>
    obtain ⟨ka, va⟩ := a
    by_cases h : ka = k <;> simp [setKey, h, ih]

/-- The entries of the annotations dict of a metadata dict:
`metadata.get("annotations", \x7b\x7d)` viewed as a list of entries. -/
def annotationsOf (metadata : List (String × PyVal)) : List (String × PyVal) :=
  pyItems ((lookupD metadata "annotations").getD (.pyDict []))

/-- `config.metadata.setdefault("annotations", \x7b\x7d)`. -/
def setdefaultAnnotations (metadata : List (String × PyVal)) :
    List (String × PyVal) :=
  if (lookupD metadata "annotations").isSome then metadata
  else setKey metadata "annotations" (.pyDict [])

/-- The annotation-stamping of `ConfigurationManager.create_configuration`
(main.py lines 174-177): `setdefault("annotations", \x7b\x7d)`, then set
`created` and `lastModified` to the two `datetime.utcnow()` readings (the
parameters here).  This is the configuration passed to the backing store's
create call. -/
def create_stamp (t_created t_modified : String)
    (config : ApplicationConfiguration) : ApplicationConfiguration :=
  let md := setdefaultAnnotations config.metadata
  let newAnnots : List (String × PyVal) :=
    setKey (setKey (annotationsOf md) "created" (.pyStr t_created))
      "lastModified" (.pyStr t_modified)
  { config with metadata := setKey md "annotations" (.pyDict newAnnots) }

/-- The annotation-stamping of `ConfigurationManager.update_configuration`
(main.py lines 198-200): `setdefault("annotations", \x7b\x7d)`, then set
only `lastModified`.  This is the configuration passed to the backing
store's patch call. -/
def update_stamp (t_modified : String)
    (config : ApplicationConfiguration) : ApplicationConfiguration :=
  let md := setdefaultAnnotations config.metadata
  let newAnnots : List (String × PyVal) :=
    setKey (annotationsOf md) "lastModified" (.pyStr t_modified)
  { config with metadata := setKey md "annotations" (.pyDict newAnnots) }

/-- `setdefault` does not change the annotations view. -/
theorem annotationsOf_setdefault (metadata : List (String × PyVal)) :
    annotationsOf (setdefaultAnnotations metadata) = annotationsOf metadata := by
  unfold setdefaultAnnotations annotationsOf
  by_cases h : (lookupD metadata "annotations").isSome
  · simp [h]
  · rw [if_neg h, lookupD_setKey_self]
    rw [Option.not_isSome_iff_eq_none] at h
    simp [h, pyItems]

/-- `setdefault` does not change any key other than `annotations`. -/
theorem lookupD_setdefault_ne (metadata : List (String × PyVal))
    (k : String) (h : k ≠ "annotations") :
    lookupD (setdefaultAnnotations metadata) k = lookupD metadata k := by
  unfold setdefaultAnnotations
  by_cases hs : (lookupD metadata "annotations").isSome
  · simp [hs]
  · rw [if_neg hs, lookupD_setKey_ne _ _ _ _ h]

/-- C9: `create` stamps both the `created` and `lastModified` annotations
with the clock readings; `update` stamps only `lastModified`, and passes
everything else to the backing store unchanged: the spec, the apiVersion,
the kind, every metadata key other than `annotations`, and every annotation
other than `lastModified` (in particular an existing `created`). -/
theorem create_update_stamp_frame (t1 t2 t : String)
    (config : ApplicationConfiguration) (k : String) :
    lookupD (annotationsOf (create_stamp t1 t2 config).metadata) "created" =
      some (.pyStr t1) ∧
    lookupD (annotationsOf (create_stamp t1 t2 config).metadata)
      "lastModified" = some (.pyStr t2) ∧
    lookupD (annotationsOf (update_stamp t config).metadata) "lastModified" =
      some (.pyStr t) ∧
    (update_stamp t config).spec = config.spec ∧
    (update_stamp t config).apiVersion = config.apiVersion ∧
    (update_stamp t config).kind = config.kind ∧
    (k ≠ "annotations" →
      lookupD (update_stamp t config).metadata k =
        lookupD config.metadata k) ∧
    (k ≠ "lastModified" →
      lookupD (annotationsOf (update_stamp t config).metadata) k =
        lookupD (annotationsOf config.metadata) k) := by
  have hkey : ∀ (md a : List (String × PyVal)),
      annotationsOf (setKey md "annotations" (.pyDict a)) = a := by
    intro md a
    unfold annotationsOf
    rw [lookupD_setKey_self]
    rfl
  have hcreate : annotationsOf (create_stamp t1 t2 config).metadata =
      setKey (setKey (annotationsOf config.metadata) "created" (.pyStr t1))
        "lastModified" (.pyStr t2) := by
    simp only [create_stamp]
    rw [hkey, annotationsOf_setdefault]
  have hupdate : annotationsOf (update_stamp t config).metadata =
      setKey (annotationsOf config.metadata) "lastModified" (.pyStr t) := by
    simp only [update_stamp]
    rw [hkey, annotationsOf_setdefault]
  refine ⟨?_, ?_, ?_, rfl, rfl, rfl, ?_, ?_⟩
  · rw [hcreate, lookupD_setKey_ne _ _ _ _ (by decide), lookupD_setKey_self]
  · rw [hcreate, lookupD_setKey_self]
  · rw [hupdate, lookupD_setKey_self]
  · intro h
    simp only [update_stamp]
    rw [lookupD_setKey_ne _ _ _ _ h, lookupD_setdefault_ne _ _ h]
  · intro h
    rw [hupdate, lookupD_setKey_ne _ _ _ _ h]

/-- C9 witness: updating a configuration that carries a `created` annotation
keeps `created` (and the rest) and rewrites only `lastModified`. -/
theorem create_update_stamp_frame_witness :
    lookupD (annotationsOf (update_stamp "T2"
      { metadata := [("name", .pyStr "n"),
          ("annotations", .pyDict [("created", .pyStr "T0"),
            ("lastModified", .pyStr "T1")])],
        spec := [("application", .pyStr "app")] }).metadata) "lastModified" =
      some (.pyStr "T2") ∧
    lookupD (annotationsOf (update_stamp "T2"
      { metadata := [("name", .pyStr "n"),
          ("annotations", .pyDict [("created", .pyStr "T0"),
            ("lastModified", .pyStr "T1")])],
        spec := [("application", .pyStr "app")] }).metadata) "created" =
      some (.pyStr "T0") ∧
    lookupD (annotationsOf (create_stamp "T0" "T1"
      { metadata := [("name", .pyStr "n")],
        spec := [("application", .pyStr "app")] }).metadata) "created" =
      some (.pyStr "T0") := by
  have h1 := create_update_stamp_frame "T0" "T1" "T2"
    { metadata := [("name", .pyStr "n"),
        ("annotations", .pyDict [("created", .pyStr "T0"),
          ("lastModified", .pyStr "T1")])],
      spec := [("application", .pyStr "app")] } "created"
  have h2 := create_update_stamp_frame "T0" "T1" "T2"
    { metadata := [("name", .pyStr "n")],
      spec := [("application", .pyStr "app")] } "created"
  refine ⟨h1.2.2.1, ?_, h2.1⟩
  rw [h1.2.2.2.2.2.2.2 (by decide)]
  rfl

/-- The PUT route handler `update_configuration` (main.py lines 522-533):
before delegating to the manager's update, it overwrites the body's
metadata name and namespace with the path parameters. -/
def update_configuration_route (name namespace_arg : String)
    (config : ApplicationConfiguration) : ApplicationConfiguration :=
  let md :=
    setKey (setKey config.metadata "name" (.pyStr name))
      "namespace" (.pyStr namespace_arg)
  { config with metadata := md }

/-- C10: after the PUT route handler, the configuration handed to the update
operation carries exactly the path's name and namespace, whatever identity
the body claimed, and nothing else in it changed. -/
theorem update_route_forces_path_identity (name namespace_arg : String)
    (config : ApplicationConfiguration) (k : String)
    (h1 : k ≠ "name") (h2 : k ≠ "namespace") :
    lookupD (update_configuration_route name namespace_arg config).metadata
      "name" = some (.pyStr name) ∧
    lookupD (update_configuration_route name namespace_arg config).metadata
      "namespace" = some (.pyStr namespace_arg) ∧
    (update_configuration_route name namespace_arg config).spec =
      config.spec ∧
    lookupD (update_configuration_route name namespace_arg config).metadata
      k = lookupD config.metadata k := by
  refine ⟨?_, ?_, rfl, ?_⟩
  · simp only [update_configuration_route]
    rw [lookupD_setKey_ne _ _ "name" _ (by decide), lookupD_setKey_self]
  · simp only [update_configuration_route]
    rw [lookupD_setKey_self]
  · simp only [update_configuration_route]
    rw [lookupD_setKey_ne _ _ _ _ h2, lookupD_setKey_ne _ _ _ _ h1]

/-- C10 witness: a body claiming identity (other, elsewhere) is forced to
the path identity (real, ns1); its labels are untouched. -/
theorem update_route_forces_path_identity_witness :
    lookupD (update_configuration_route "real" "ns1"
      { metadata := [("name", .pyStr "other"),
          ("namespace", .pyStr "elsewhere"),
          ("labels", .pyDict [("app", .pyStr "x")])],
        spec := [] }).metadata "name" = some (.pyStr "real") ∧
    lookupD (update_configuration_route "real" "ns1"
      { metadata := [("name", .pyStr "other"),
          ("namespace", .pyStr "elsewhere"),
          ("labels", .pyDict [("app", .pyStr "x")])],
        spec := [] }).metadata "labels" =
      some (.pyDict [("app", .pyStr "x")]) := by
  have h := update_route_forces_path_identity "real" "ns1"
    { metadata := [("name", .pyStr "other"),
        ("namespace", .pyStr "elsewhere"),
        ("labels", .pyDict [("app", .pyStr "x")])],
      spec := [] } "labels" (by decide) (by decide)
  refine ⟨h.1, ?_⟩
  rw [h.2.2.2]
  rfl

end IdpPlatform
